import Mathlib

/-!
Shallow embedding of `src/app.py` (MindBlomAcademyconnect): a Flask service
with one write endpoint `POST /log_interaction`, one read-only endpoint
`GET /health`, and a single SQLAlchemy table `interactions`.

The embedding models:
- JSON values as seen by `request.get_json()`, with Python truthiness;
- `dict.get` including the `AttributeError` raised when the parsed body is
  not a dict;
- the environment (`DATABASE_URL`, `API_KEY`) as optional strings, with
  Python truthiness of `os.getenv` results;
- module-level startup (`create_engine`, `Base.metadata.create_all`);
- the request handler `log_interaction` as a pure function of the
  environment, the request, the freshly drawn uuid, the server clock and
  the commit outcome, returning the response together with the new table
  contents and the session lifecycle flags;
- `health_check`;
- traces of operations against one server, to state whole-history
  invariants.
-/

/-- A JSON value, as produced by `request.get_json()` in `app.py`.
Numbers are modelled as integers (no claim depends on float behaviour). -/
inductive Json where
  | null
  | bool (b : Bool)
  | num (n : Int)
  | str (s : String)
  | arr (elems : List Json)
  | obj (fields : List (String × Json))
deriving Repr

/-- Python truthiness of a JSON value: `None`, `False`, `0`, `""`, `[]`
and `{}` are falsy, everything else truthy.  This is what `if not data:`
and `if not user_message or not gpt_response:` test in `app.py`. -/
def truthy : Json → Bool
  | .null => false
  | .bool b => b
  | .num n => n != 0
  | .str s => s != ""
  | .arr elems => !elems.isEmpty
  | .obj fields => !fields.isEmpty

/-- Truthiness of an optional Python value (`None` is falsy). -/
def truthyOpt : Option Json → Bool
  | none => false
  | some j => truthy j

/-- Truthiness of an optional string, as tested by
`if not expected_api_key:` / `if not incoming_api_key ...` on the results
of `os.getenv` and `request.headers.get` (absent → `None` → falsy,
present-but-empty → `""` → falsy). -/
def strTruthy : Option String → Bool
  | none => false
  | some s => s != ""

/-- Lookup in a parsed JSON object, mirroring Python `dict.get(key)`:
`None` when the key is absent. -/
def dictGet (fields : List (String × Json)) (key : String) : Option Json :=
  (fields.find? (fun p => p.1 == key)).map (fun p => p.2)

/-- `data.get(key)` in Python: succeeds on a dict; on any other parsed
JSON value (`list`, `str`, `int`, `bool`, `None`) the attribute `.get`
does not exist and an `AttributeError` is raised, which `log_interaction`
does not catch. -/
def pyGet : Json → String → Except Unit (Option Json)
  | .obj fields, key => .ok (dictGet fields key)
  | _, _ => .error ()

/-- The process environment read via `os.getenv`: `none` means the
variable is unset. -/
structure Env where
  databaseUrl : Option String
  apiKey : Option String

/-- An incoming HTTP request to `POST /log_interaction`.
`xApiKey` is `request.headers.get('X-API-KEY')` (`none` when the header is
absent).  `body` is the outcome of `request.get_json()`: `none` means the
request body was not valid JSON, in which case `get_json` raises
`BadRequest` and Flask answers 400 with a framework-generated error page. -/
structure Request where
  xApiKey : Option String
  body : Option Json

/-- A response body: either a JSON payload built by `jsonify`, or an
error page generated by the framework for an uncaught exception. -/
inductive RespBody where
  | json (j : Json)
  | page (description : String)
deriving Repr

/-- An HTTP response: status code and body. -/
structure Response where
  status : Nat
  body : RespBody
deriving Repr

/-- A row of the `interactions` table, following the `Interaction` model
in `app.py`.  `user_id`, `user_message`, `gpt_response` and
`conversation_id` hold exactly the Python values that
`log_interaction` passes to the `Interaction` constructor (each is the
result of a `data.get`, hence an optional JSON value; the handler's guard
ensures the two required ones are truthy before any insert).
`id` is the uuid drawn by the column default at insert time and
`timestamp` is `datetime.utcnow()` at write time, modelled as the server
clock value. -/
structure Interaction where
  id : String
  user_id : Option Json
  user_message : Option Json
  gpt_response : Option Json
  conversation_id : Option Json
  timestamp : Nat
deriving Repr

/-- Result of one call to the `log_interaction` handler: the HTTP
response, the table contents afterwards, and the lifecycle of the
SQLAlchemy session used for the attempt (whether `Session()` ran, whether
`session.close()` ran, whether `session.rollback()` ran). -/
structure HandlerResult where
  response : Response
  db : List Interaction
  sessionOpened : Bool
  sessionClosed : Bool
  rolledBack : Bool
deriving Repr

/-- A `HandlerResult` for the early-return paths of `log_interaction`
(before `session = Session()`): no session, table unchanged. -/
def earlyReturn (status : Nat) (body : RespBody) (db : List Interaction) :
    HandlerResult :=
  { response := { status := status, body := body }
    db := db
    sessionOpened := false
    sessionClosed := false
    rolledBack := false }

/-- `jsonify({"error": msg})`. -/
def jsonError (msg : String) : RespBody :=
  .json (.obj [("error", .str msg)])

/-- The handler of `POST /log_interaction` in `app.py`, as a pure
function.  Inputs beyond the environment, the request and the current
table contents:
- `freshId`: the value `str(uuid.uuid4())` drawn by the `id` column
  default at insert time;
- `now`: the value of `datetime.utcnow()` at write time (server clock);
- `commitError`: outcome of `session.commit()` — `none` means the commit
  succeeds, `some e` means it raises an exception whose `str` is `e`. -/
def log_interaction (env : Env) (req : Request) (freshId : String)
    (now : Nat) (commitError : Option String) (db : List Interaction) :
    HandlerResult :=
  -- 1. Authentication Check
  let expected_api_key := env.apiKey
  if !strTruthy expected_api_key then
    earlyReturn 500 (jsonError "Server configuration error: API key not set") db
  else
    let incoming_api_key := req.xApiKey
    if !strTruthy incoming_api_key || incoming_api_key != expected_api_key then
      earlyReturn 401 (jsonError "Unauthorized: Invalid API Key") db
    else
      -- 2. Parse Incoming JSON Data
      match req.body with
      | none =>
        -- request.get_json() raises BadRequest on a malformed body;
        -- Flask converts it to a 400 with a framework error page.
        earlyReturn 400 (.page "BadRequest: Failed to decode JSON object") db
      | some data =>
        if !truthy data then
          earlyReturn 400 (jsonError "No JSON data provided") db
        else
          match pyGet data "userMessage" with
          | .error _ =>
            -- data.get on a non-dict raises AttributeError (uncaught → 500).
            earlyReturn 500 (.page "AttributeError: get") db
          | .ok user_message =>
            match pyGet data "gptResponse" with
            | .error _ => earlyReturn 500 (.page "AttributeError: get") db
            | .ok gpt_response =>
              match pyGet data "userId" with
              | .error _ => earlyReturn 500 (.page "AttributeError: get") db
              | .ok user_id =>
                match pyGet data "conversationId" with
                | .error _ => earlyReturn 500 (.page "AttributeError: get") db
                | .ok conversation_id =>
                  -- 3. Validate Required Fields
                  if !truthyOpt user_message || !truthyOpt gpt_response then
                    earlyReturn 400
                      (jsonError "'userMessage' and 'gptResponse' are required") db
                  else
                    -- 4. Save to Database (session = Session(); try/except/finally)
                    let new_interaction : Interaction :=
                      { id := freshId
                        user_id := user_id
                        user_message := user_message
                        gpt_response := gpt_response
                        conversation_id := conversation_id
                        timestamp := now }
                    match commitError with
                    | none =>
                      { response :=
                          { status := 200
                            body := .json (.obj
                              [("status", .str "success"),
                               ("message", .str "Interaction logged successfully")]) }
                        db := db ++ [new_interaction]
                        sessionOpened := true
                        sessionClosed := true
                        rolledBack := false }
                    | some e =>
                      { response :=
                          { status := 500
                            body := jsonError ("Failed to log interaction: " ++ e) }
                        db := db
                        sessionOpened := true
                        sessionClosed := true
                        rolledBack := true }

/-- The handler of `GET /health`: a constant 200, no table access. -/
def health_check (db : List Interaction) : HandlerResult :=
  { response :=
      { status := 200
        body := .json (.obj
          [("status", .str "healthy"), ("message", .str "API is running")]) }
    db := db
    sessionOpened := false
    sessionClosed := false
    rolledBack := false }

/-- Outcome of module import (process startup) of `app.py`. -/
inductive StartupOutcome where
  | running (warnedMissingDbUrl : Bool) (tableCreateFailed : Bool)
  | crashed (exceptionMsg : String)
deriving Repr

/-- Module-level startup of `app.py`: read `DATABASE_URL`, print a warning
when it is falsy, then `engine = create_engine(DATABASE_URL)` — which, when
`DATABASE_URL` is `None`, raises `sqlalchemy.exc.ArgumentError` ("Expected
string or URL object, got None") uncaught at import time — and finally
`Base.metadata.create_all(engine)` inside `try/except`, so an unreachable
database is only printed, never fatal (`dbReachable` models whether that
call succeeds). -/
def startup (env : Env) (dbReachable : Bool) : StartupOutcome :=
  let warned := !strTruthy env.databaseUrl
  match env.databaseUrl with
  | none => .crashed "ArgumentError: Expected string or URL object, got None"
  | some _ => .running warned (!dbReachable)

/-- The per-request inputs of one `POST /log_interaction` call. -/
structure OpInput where
  req : Request
  freshId : String
  now : Nat
  commitError : Option String

/-- One operation offered by the running service. -/
inductive Op where
  | post (i : OpInput)
  | health

/-- Effect of one operation on the `interactions` table. -/
def stepDb (env : Env) (db : List Interaction) : Op → List Interaction
  | .post i => (log_interaction env i.req i.freshId i.now i.commitError db).db
  | .health => (health_check db).db

/-- Table contents after serving a sequence of operations. -/
def runTrace (env : Env) (ops : List Op) (db : List Interaction) :
    List Interaction :=
  ops.foldl (stepDb env) db

/-- The uuids drawn by the `id` column default across a trace, one per
`POST /log_interaction` call, in order. -/
def postFreshIds : List Op → List String
  | [] => []
  | .post i :: rest => i.freshId :: postFreshIds rest
  | .health :: rest => postFreshIds rest

/-- One call to `log_interaction` either leaves the table unchanged or
appends exactly one row, whose `id` is the drawn uuid, whose `timestamp`
is the server clock, and whose two required fields are truthy. -/
theorem log_interaction_db_cases (env : Env) (req : Request)
    (freshId : String) (now : Nat) (commitError : Option String)
    (db : List Interaction) :
    (log_interaction env req freshId now commitError db).db = db ∨
    ∃ r, (log_interaction env req freshId now commitError db).db = db ++ [r] ∧
      r.id = freshId ∧ r.timestamp = now ∧
      truthyOpt r.user_message = true ∧ truthyOpt r.gpt_response = true := by
  unfold log_interaction
  dsimp only
  repeat' split
  all_goals
    first
      | (left; rfl)
      | (right; exact ⟨_, rfl, rfl, rfl, by simp_all, by simp_all⟩)

/-- On the happy path (configured key, matching header, JSON object body
with truthy `userMessage` and `gptResponse`) `log_interaction` reaches the
database write, and its entire result is determined by the commit
outcome: on success the row is appended and 200 returned, on failure the
table is rolled back unchanged and 500 returned; the session is opened
and closed in both cases. -/
theorem log_interaction_valid_eq (dbUrl : Option String) (secret : String)
    (fields : List (String × Json)) (freshId : String) (now : Nat)
    (commitError : Option String) (db : List Interaction)
    (hk : secret ≠ "")
    (hum : truthyOpt (dictGet fields "userMessage") = true)
    (hgr : truthyOpt (dictGet fields "gptResponse") = true) :
    log_interaction ⟨dbUrl, some secret⟩ ⟨some secret, some (.obj fields)⟩
        freshId now commitError db =
      (match commitError with
      | none =>
        { response :=
            { status := 200
              body := .json (.obj
                [("status", .str "success"),
                 ("message", .str "Interaction logged successfully")]) }
          db := db ++
            [{ id := freshId
               user_id := dictGet fields "userId"
               user_message := dictGet fields "userMessage"
               gpt_response := dictGet fields "gptResponse"
               conversation_id := dictGet fields "conversationId"
               timestamp := now }]
          sessionOpened := true
          sessionClosed := true
          rolledBack := false }
      | some e =>
        { response :=
            { status := 500
              body := jsonError ("Failed to log interaction: " ++ e) }
          db := db
          sessionOpened := true
          sessionClosed := true
          rolledBack := true }) := by
  have hne : fields.isEmpty = false := by
    cases fields with
    | nil => simp [dictGet, truthyOpt] at hum
    | cons a l => rfl
  unfold log_interaction
  cases commitError <;>
    simp [strTruthy, truthy, pyGet, hne, hum, hgr, hk, bne_iff_ne]

/-- C1: for every `POST /log_interaction` whose `X-API-KEY` equals the
configured secret and whose JSON body has non-empty string fields
`userMessage` and `gptResponse`, and whose commit succeeds, the handler
appends exactly one new row carrying those two fields (with `userId` and
`conversationId` stored as the body's optional values, hence null when
absent), the freshly drawn uuid as id, the server-clock timestamp, and
returns HTTP 200 with body
`{"status":"success","message":"Interaction logged successfully"}`;
when the drawn uuid is new to the table, exactly one row of the new table
carries it. -/
theorem c1_valid_request_logs_exactly_one_row
    (dbUrl : Option String) (secret um gr : String)
    (fields : List (String × Json)) (freshId : String) (now : Nat)
    (db : List Interaction)
    (hk : secret ≠ "")
    (hum : dictGet fields "userMessage" = some (.str um)) (hum2 : um ≠ "")
    (hgr : dictGet fields "gptResponse" = some (.str gr)) (hgr2 : gr ≠ "")
    (hfresh : freshId ∉ db.map Interaction.id) :
    log_interaction ⟨dbUrl, some secret⟩ ⟨some secret, some (.obj fields)⟩
        freshId now none db =
      { response :=
          { status := 200
            body := .json (.obj
              [("status", .str "success"),
               ("message", .str "Interaction logged successfully")]) }
        db := db ++
          [{ id := freshId
             user_id := dictGet fields "userId"
             user_message := some (.str um)
             gpt_response := some (.str gr)
             conversation_id := dictGet fields "conversationId"
             timestamp := now }]
        sessionOpened := true
        sessionClosed := true
        rolledBack := false } ∧
    ((log_interaction ⟨dbUrl, some secret⟩ ⟨some secret, some (.obj fields)⟩
        freshId now none db).db.filter
      (fun r => r.id == freshId)).length = 1 := by
  have h := log_interaction_valid_eq dbUrl secret fields freshId now none db hk
    (by simp [hum, truthyOpt, truthy, bne_iff_ne, hum2])
    (by simp [hgr, truthyOpt, truthy, bne_iff_ne, hgr2])
  have hfilter : db.filter (fun r => r.id == freshId) = [] := by
    rw [List.filter_eq_nil_iff]
    intro r hr
    simp only [beq_iff_eq]
    intro hEq
    exact hfresh (hEq ▸ List.mem_map_of_mem Interaction.id hr)
  constructor
  · rw [h, hum, hgr]
  · rw [h]
    simp [List.filter_append, hfilter]

/-- Witness for C1 at a concrete request: secret `abc123`, body
`{"userMessage":"hi","gptResponse":"hello"}`, empty table. -/
theorem c1_witness :
    ("abc123" : String) ≠ "" ∧
    dictGet [("userMessage", Json.str "hi"), ("gptResponse", Json.str "hello")]
      "userMessage" = some (.str "hi") ∧
    ("hi" : String) ≠ "" ∧
    dictGet [("userMessage", Json.str "hi"), ("gptResponse", Json.str "hello")]
      "gptResponse" = some (.str "hello") ∧
    ("hello" : String) ≠ "" ∧
    "uuid-1" ∉ ([] : List Interaction).map Interaction.id ∧
    (log_interaction ⟨some "postgresql://db", some "abc123"⟩
        ⟨some "abc123", some (.obj [("userMessage", Json.str "hi"),
                                    ("gptResponse", Json.str "hello")])⟩
        "uuid-1" 7 none [] =
      { response :=
          { status := 200
            body := .json (.obj
              [("status", .str "success"),
               ("message", .str "Interaction logged successfully")]) }
        db :=
          [{ id := "uuid-1"
             user_id := dictGet [("userMessage", Json.str "hi"),
                                 ("gptResponse", Json.str "hello")] "userId"
             user_message := some (.str "hi")
             gpt_response := some (.str "hello")
             conversation_id := dictGet [("userMessage", Json.str "hi"),
                                         ("gptResponse", Json.str "hello")]
                                  "conversationId"
             timestamp := 7 }]
        sessionOpened := true
        sessionClosed := true
        rolledBack := false } ∧
    ((log_interaction ⟨some "postgresql://db", some "abc123"⟩
        ⟨some "abc123", some (.obj [("userMessage", Json.str "hi"),
                                    ("gptResponse", Json.str "hello")])⟩
        "uuid-1" 7 none []).db.filter
      (fun r => r.id == "uuid-1")).length = 1) :=
  ⟨by decide, rfl, by decide, rfl, by decide, by simp,
    c1_valid_request_logs_exactly_one_row (some "postgresql://db") "abc123"
      "hi" "hello"
      [("userMessage", Json.str "hi"), ("gptResponse", Json.str "hello")]
      "uuid-1" 7 [] (by decide) rfl (by decide) rfl (by decide) (by simp)⟩

/-- C3: with the server secret configured, every `POST /log_interaction`
whose `X-API-KEY` header is missing or differs from the secret gets
HTTP 401 with body `{"error":"Unauthorized: Invalid API Key"}`, no row is
persisted and no session is even opened — for every body and every commit
outcome. -/
theorem c3_bad_key_always_401
    (dbUrl : Option String) (secret : String) (xkey : Option String)
    (body : Option Json) (freshId : String) (now : Nat)
    (commitError : Option String) (db : List Interaction)
    (hk : secret ≠ "") (hx : xkey ≠ some secret) :
    log_interaction ⟨dbUrl, some secret⟩ ⟨xkey, body⟩ freshId now
        commitError db =
      { response :=
          { status := 401
            body := .json (.obj [("error", .str "Unauthorized: Invalid API Key")]) }
        db := db
        sessionOpened := false
        sessionClosed := false
        rolledBack := false } := by
  have hcond : (!strTruthy xkey || xkey != some secret) = true := by
    cases xkey with
    | none => rfl
    | some s =>
      rcases eq_or_ne s "" with rfl | hs
      · rfl
      · have hne : s ≠ secret := fun h => hx (congrArg some h)
        simp [strTruthy, bne_iff_ne, hs, hne]
  unfold log_interaction
  simp only [hcond]
  simp [strTruthy, bne_iff_ne, hk, earlyReturn, jsonError]

/-- Witness for C3: secret `abc123`, header `wrong`, well-formed body. -/
theorem c3_witness :
    ("abc123" : String) ≠ "" ∧
    (some "wrong" : Option String) ≠ some "abc123" ∧
    log_interaction ⟨some "postgresql://db", some "abc123"⟩
        ⟨some "wrong", some (.obj [("userMessage", Json.str "hi"),
                                   ("gptResponse", Json.str "hello")])⟩
        "uuid-1" 7 none [] =
      { response :=
          { status := 401
            body := .json (.obj [("error", .str "Unauthorized: Invalid API Key")]) }
        db := []
        sessionOpened := false
        sessionClosed := false
        rolledBack := false } :=
  ⟨by decide, by decide,
    c3_bad_key_always_401 (some "postgresql://db") "abc123" (some "wrong")
      (some (.obj [("userMessage", Json.str "hi"),
                   ("gptResponse", Json.str "hello")]))
      "uuid-1" 7 none [] (by decide) (by decide)⟩

/-- C7: when no server-side secret is configured (`API_KEY` unset or set
to the empty string), every `POST /log_interaction` gets HTTP 500 with
the configuration-error body, whatever the header, body and commit
outcome — in particular requests that would otherwise be rejected with
401 get 500, so this check precedes authentication — and no row is
persisted, no session opened. -/
theorem c7_missing_secret_always_500
    (dbUrl : Option String) (apiKey : Option String) (req : Request)
    (freshId : String) (now : Nat) (commitError : Option String)
    (db : List Interaction)
    (hk : strTruthy apiKey = false) :
    log_interaction ⟨dbUrl, apiKey⟩ req freshId now commitError db =
      { response :=
          { status := 500
            body := .json (.obj
              [("error", .str "Server configuration error: API key not set")]) }
        db := db
        sessionOpened := false
        sessionClosed := false
        rolledBack := false } := by
  unfold log_interaction
  simp [hk, earlyReturn, jsonError]

/-- Witness for C7: `API_KEY` unset, request with an arbitrary header. -/
theorem c7_witness :
    strTruthy (none : Option String) = false ∧
    log_interaction ⟨some "postgresql://db", none⟩
        ⟨some "whatever", some (.obj [("userMessage", Json.str "hi")])⟩
        "uuid-1" 7 none [] =
      { response :=
          { status := 500
            body := .json (.obj
              [("error", .str "Server configuration error: API key not set")]) }
        db := []
        sessionOpened := false
        sessionClosed := false
        rolledBack := false } :=
  ⟨rfl,
    c7_missing_secret_always_500 (some "postgresql://db") none
      ⟨some "whatever", some (.obj [("userMessage", Json.str "hi")])⟩
      "uuid-1" 7 none [] rfl⟩

/-- C8: `GET /health` always answers HTTP 200 with the static body
`{"status":"healthy","message":"API is running"}`, leaves the table
untouched and opens no session, for every table state — in particular
independently of configuration and database availability, which
`health_check` never reads. -/
theorem c8_health_always_200 (db : List Interaction) :
    health_check db =
      { response :=
          { status := 200
            body := .json (.obj
              [("status", .str "healthy"), ("message", .str "API is running")]) }
        db := db
        sessionOpened := false
        sessionClosed := false
        rolledBack := false } := rfl

/-- C10: with a correct key, a body that is valid JSON but parses to a
falsy Python value (`{}`, `null`, `false`, `0`, `""`, `[]`) is rejected
by the `if not data:` truthiness test with HTTP 400 and body
`{"error":"No JSON data provided"}`, and no row is persisted. -/
theorem c10_falsy_body_rejected
    (dbUrl : Option String) (secret : String) (data : Json)
    (freshId : String) (now : Nat) (commitError : Option String)
    (db : List Interaction)
    (hk : secret ≠ "") (hfalsy : truthy data = false) :
    log_interaction ⟨dbUrl, some secret⟩ ⟨some secret, some data⟩
        freshId now commitError db =
      { response :=
          { status := 400
            body := .json (.obj [("error", .str "No JSON data provided")]) }
        db := db
        sessionOpened := false
        sessionClosed := false
        rolledBack := false } := by
  unfold log_interaction
  simp [strTruthy, bne_iff_ne, hk, hfalsy, earlyReturn, jsonError]

/-- Witness for C10: correct key, body `{}` (the empty JSON object). -/
theorem c10_witness :
    ("abc123" : String) ≠ "" ∧
    truthy (.obj []) = false ∧
    log_interaction ⟨some "postgresql://db", some "abc123"⟩
        ⟨some "abc123", some (.obj [])⟩ "uuid-1" 7 none [] =
      { response :=
          { status := 400
            body := .json (.obj [("error", .str "No JSON data provided")]) }
        db := []
        sessionOpened := false
        sessionClosed := false
        rolledBack := false } :=
  ⟨by decide, rfl,
    c10_falsy_body_rejected (some "postgresql://db") "abc123" (.obj [])
      "uuid-1" 7 none [] (by decide) rfl⟩

/-- C4's antecedent, as amended: the body is not valid JSON, or it parses
to a JSON object whose `userMessage` or `gptResponse` is missing or the
empty string. -/
def missingOrEmpty : Option Json → Bool
  | none => true
  | some (.str s) => s == ""
  | some _ => false

/-- A request body that the amended C4 says is rejected with 400:
invalid JSON, or a JSON object with `userMessage` or `gptResponse`
missing or the empty string. -/
def badBody : Option Json → Bool
  | none => true
  | some (.obj fields) =>
      missingOrEmpty (dictGet fields "userMessage") ||
      missingOrEmpty (dictGet fields "gptResponse")
  | some _ => false

/-- A missing-or-empty field is falsy in Python. -/
theorem truthyOpt_of_missingOrEmpty (x : Option Json)
    (h : missingOrEmpty x = true) : truthyOpt x = false := by
  cases x with
  | none => rfl
  | some j => cases j <;> simp_all [missingOrEmpty, truthyOpt, truthy]

/-- C4 counterexample: the request body `[1]` is valid JSON in which both
`userMessage` and `gptResponse` are missing, and the key is correct, yet
the handler answers 500, not 400: the body is truthy, so the handler
reaches `data.get('userMessage')`, which raises `AttributeError` on a
list; the uncaught exception becomes an internal server error. -/
theorem c4_counterexample :
    (log_interaction ⟨some "postgresql://db", some "abc123"⟩
        ⟨some "abc123", some (.arr [.num 1])⟩ "uuid-1" 7 none []).response.status
      ≠ 400 ∧
    (log_interaction ⟨some "postgresql://db", some "abc123"⟩
        ⟨some "abc123", some (.arr [.num 1])⟩ "uuid-1" 7 none []).response.status
      = 500 := by
  constructor
  · decide
  · rfl

/-- C4 (amended): for every `POST /log_interaction` with a correct
`X-API-KEY` whose body is not valid JSON, or parses to a JSON object in
which `userMessage` or `gptResponse` is missing or the empty string, the
handler returns HTTP 400, no row is persisted and no session is opened.
(Bodies that are truthy non-objects are excluded: those raise an
uncaught `AttributeError` and yield 500 instead, see the
counterexample.) -/
theorem c4_amended_bad_input_rejected
    (dbUrl : Option String) (secret : String) (body : Option Json)
    (freshId : String) (now : Nat) (commitError : Option String)
    (db : List Interaction)
    (hk : secret ≠ "") (hbad : badBody body = true) :
    (log_interaction ⟨dbUrl, some secret⟩ ⟨some secret, body⟩
        freshId now commitError db).response.status = 400 ∧
    (log_interaction ⟨dbUrl, some secret⟩ ⟨some secret, body⟩
        freshId now commitError db).db = db ∧
    (log_interaction ⟨dbUrl, some secret⟩ ⟨some secret, body⟩
        freshId now commitError db).sessionOpened = false := by
  cases body with
  | none =>
    unfold log_interaction
    simp [strTruthy, bne_iff_ne, hk, earlyReturn]
  | some data =>
    cases data with
    | obj fields =>
      have hmiss : missingOrEmpty (dictGet fields "userMessage") = true ∨
          missingOrEmpty (dictGet fields "gptResponse") = true := by
        simpa [badBody, Bool.or_eq_true] using hbad
      by_cases ht : truthy (.obj fields) = true
      · have hguard : (!truthyOpt (dictGet fields "userMessage") ||
            !truthyOpt (dictGet fields "gptResponse")) = true := by
          rcases hmiss with h | h <;>
            simp [truthyOpt_of_missingOrEmpty _ h]
        unfold log_interaction
        simp only [pyGet, hguard]
        simp [strTruthy, bne_iff_ne, hk, ht, earlyReturn]
      · unfold log_interaction
        simp only [pyGet]
        simp [strTruthy, bne_iff_ne, hk,
          Bool.not_eq_true _ ▸ ht, earlyReturn, truthy] at ht ⊢
        simp [ht, earlyReturn]
    | null => simp [badBody] at hbad
    | bool b => simp [badBody] at hbad
    | num n => simp [badBody] at hbad
    | str s => simp [badBody] at hbad
    | arr elems => simp [badBody] at hbad

/-- Witness for the amended C4: correct key, body
`{"userMessage":"hi"}` (a JSON object with `gptResponse` missing). -/
theorem c4_amended_witness :
    ("abc123" : String) ≠ "" ∧
    badBody (some (.obj [("userMessage", Json.str "hi")])) = true ∧
    ((log_interaction ⟨some "postgresql://db", some "abc123"⟩
        ⟨some "abc123", some (.obj [("userMessage", Json.str "hi")])⟩
        "uuid-1" 7 none []).response.status = 400 ∧
     (log_interaction ⟨some "postgresql://db", some "abc123"⟩
        ⟨some "abc123", some (.obj [("userMessage", Json.str "hi")])⟩
        "uuid-1" 7 none []).db = [] ∧
     (log_interaction ⟨some "postgresql://db", some "abc123"⟩
        ⟨some "abc123", some (.obj [("userMessage", Json.str "hi")])⟩
        "uuid-1" 7 none []).sessionOpened = false) :=
  ⟨by decide, rfl,
    c4_amended_bad_input_rejected (some "postgresql://db") "abc123"
      (some (.obj [("userMessage", Json.str "hi")]))
      "uuid-1" 7 none [] (by decide) rfl⟩

/-- C5: on a request that reaches the database write, the session is
opened and then closed whatever the commit outcome (the `finally` path),
and when the commit raises, the handler rolls back, leaves the table
exactly as it was (no partial row) and answers HTTP 500 with a JSON
error body. -/
theorem c5_storage_failure_rolls_back_and_closes
    (dbUrl : Option String) (secret : String) (fields : List (String × Json))
    (freshId : String) (now : Nat) (db : List Interaction) (e : String)
    (hk : secret ≠ "")
    (hum : truthyOpt (dictGet fields "userMessage") = true)
    (hgr : truthyOpt (dictGet fields "gptResponse") = true) :
    (∀ commitError,
      (log_interaction ⟨dbUrl, some secret⟩ ⟨some secret, some (.obj fields)⟩
          freshId now commitError db).sessionOpened = true ∧
      (log_interaction ⟨dbUrl, some secret⟩ ⟨some secret, some (.obj fields)⟩
          freshId now commitError db).sessionClosed = true) ∧
    log_interaction ⟨dbUrl, some secret⟩ ⟨some secret, some (.obj fields)⟩
        freshId now (some e) db =
      { response :=
          { status := 500
            body := .json (.obj
              [("error", .str ("Failed to log interaction: " ++ e))]) }
        db := db
        sessionOpened := true
        sessionClosed := true
        rolledBack := true } := by
  constructor
  · intro commitError
    rw [log_interaction_valid_eq dbUrl secret fields freshId now commitError db
      hk hum hgr]
    cases commitError <;> exact ⟨rfl, rfl⟩
  · rw [log_interaction_valid_eq dbUrl secret fields freshId now (some e) db
      hk hum hgr]
    rfl

/-- Witness for C5: correct key, well-formed body, commit raises
`connection refused`. -/
theorem c5_witness :
    ("abc123" : String) ≠ "" ∧
    truthyOpt (dictGet [("userMessage", Json.str "hi"),
                        ("gptResponse", Json.str "hello")] "userMessage") = true ∧
    truthyOpt (dictGet [("userMessage", Json.str "hi"),
                        ("gptResponse", Json.str "hello")] "gptResponse") = true ∧
    ((∀ commitError,
      (log_interaction ⟨some "postgresql://db", some "abc123"⟩
          ⟨some "abc123", some (.obj [("userMessage", Json.str "hi"),
                                      ("gptResponse", Json.str "hello")])⟩
          "uuid-1" 7 commitError []).sessionOpened = true ∧
      (log_interaction ⟨some "postgresql://db", some "abc123"⟩
          ⟨some "abc123", some (.obj [("userMessage", Json.str "hi"),
                                      ("gptResponse", Json.str "hello")])⟩
          "uuid-1" 7 commitError []).sessionClosed = true) ∧
    log_interaction ⟨some "postgresql://db", some "abc123"⟩
        ⟨some "abc123", some (.obj [("userMessage", Json.str "hi"),
                                    ("gptResponse", Json.str "hello")])⟩
        "uuid-1" 7 (some "connection refused") [] =
      { response :=
          { status := 500
            body := .json (.obj
              [("error",
                .str ("Failed to log interaction: " ++ "connection refused"))]) }
        db := []
        sessionOpened := true
        sessionClosed := true
        rolledBack := true }) :=
  ⟨by decide, rfl, rfl,
    c5_storage_failure_rolls_back_and_closes (some "postgresql://db") "abc123"
      [("userMessage", Json.str "hi"), ("gptResponse", Json.str "hello")]
      "uuid-1" 7 [] "connection refused" (by decide) rfl rfl⟩

/-- Prepending a field under a different key does not change a
`dict.get` lookup. -/
theorem dictGet_cons_ne (k : String) (v : Json)
    (fields : List (String × Json)) (key : String) (h : k ≠ key) :
    dictGet ((k, v) :: fields) key = dictGet fields key := by
  simp [dictGet, List.find?_cons, h]

/-- C9: on the happy path the persisted timestamp is the server clock
value `now` (the `datetime.utcnow()` taken inside the handler), and a
client-supplied field under any key other than the four the handler
reads — in particular a `timestamp` field — has no influence: the
handler's entire result (response, table, session flags) is unchanged
when such a field is added to the body, for every commit outcome. -/
theorem c9_client_timestamp_ignored
    (dbUrl : Option String) (secret : String) (fields : List (String × Json))
    (k : String) (v : Json) (freshId : String) (now : Nat)
    (db : List Interaction)
    (hk : secret ≠ "")
    (hum : truthyOpt (dictGet fields "userMessage") = true)
    (hgr : truthyOpt (dictGet fields "gptResponse") = true)
    (hk1 : k ≠ "userMessage") (hk2 : k ≠ "gptResponse")
    (hk3 : k ≠ "userId") (hk4 : k ≠ "conversationId") :
    (∀ r, r ∈ (log_interaction ⟨dbUrl, some secret⟩
        ⟨some secret, some (.obj fields)⟩ freshId now none db).db →
      r ∉ db → r.timestamp = now) ∧
    (∀ commitError,
      log_interaction ⟨dbUrl, some secret⟩
          ⟨some secret, some (.obj ((k, v) :: fields))⟩
          freshId now commitError db =
        log_interaction ⟨dbUrl, some secret⟩
          ⟨some secret, some (.obj fields)⟩ freshId now commitError db) := by
  constructor
  · intro r hr hnot
    rw [log_interaction_valid_eq dbUrl secret fields freshId now none db
      hk hum hgr] at hr
    simp only [List.mem_append, List.mem_singleton] at hr
    rcases hr with h | h
    · exact absurd h hnot
    · rw [h]
  · intro commitError
    have hum' : truthyOpt (dictGet ((k, v) :: fields) "userMessage") = true := by
      rw [dictGet_cons_ne k v fields "userMessage" hk1]; exact hum
    have hgr' : truthyOpt (dictGet ((k, v) :: fields) "gptResponse") = true := by
      rw [dictGet_cons_ne k v fields "gptResponse" hk2]; exact hgr
    rw [log_interaction_valid_eq dbUrl secret ((k, v) :: fields) freshId now
        commitError db hk hum' hgr',
      log_interaction_valid_eq dbUrl secret fields freshId now
        commitError db hk hum hgr,
      dictGet_cons_ne k v fields "userMessage" hk1,
      dictGet_cons_ne k v fields "gptResponse" hk2,
      dictGet_cons_ne k v fields "userId" hk3,
      dictGet_cons_ne k v fields "conversationId" hk4]

/-- Witness for C9: adding `"timestamp": 999` to the body of a valid
request changes nothing, and the stored timestamp is the server's `7`. -/
theorem c9_witness :
    ("abc123" : String) ≠ "" ∧
    truthyOpt (dictGet [("userMessage", Json.str "hi"),
                        ("gptResponse", Json.str "hello")] "userMessage") = true ∧
    truthyOpt (dictGet [("userMessage", Json.str "hi"),
                        ("gptResponse", Json.str "hello")] "gptResponse") = true ∧
    ("timestamp" : String) ≠ "userMessage" ∧
    ("timestamp" : String) ≠ "gptResponse" ∧
    ("timestamp" : String) ≠ "userId" ∧
    ("timestamp" : String) ≠ "conversationId" ∧
    ((∀ r, r ∈ (log_interaction ⟨some "postgresql://db", some "abc123"⟩
        ⟨some "abc123", some (.obj [("userMessage", Json.str "hi"),
                                    ("gptResponse", Json.str "hello")])⟩
        "uuid-1" 7 none []).db →
      r ∉ ([] : List Interaction) → r.timestamp = 7) ∧
    (∀ commitError,
      log_interaction ⟨some "postgresql://db", some "abc123"⟩
          ⟨some "abc123", some (.obj [("timestamp", Json.num 999),
                                      ("userMessage", Json.str "hi"),
                                      ("gptResponse", Json.str "hello")])⟩
          "uuid-1" 7 commitError [] =
        log_interaction ⟨some "postgresql://db", some "abc123"⟩
          ⟨some "abc123", some (.obj [("userMessage", Json.str "hi"),
                                      ("gptResponse", Json.str "hello")])⟩
          "uuid-1" 7 commitError [])) :=
  ⟨by decide, rfl, rfl, by decide, by decide, by decide, by decide,
    c9_client_timestamp_ignored (some "postgresql://db") "abc123"
      [("userMessage", Json.str "hi"), ("gptResponse", Json.str "hello")]
      "timestamp" (Json.num 999) "uuid-1" 7 []
      (by decide) rfl rfl (by decide) (by decide) (by decide) (by decide)⟩

/-- C2 (code bug): the spec says a missing `DATABASE_URL` is only logged
and the process starts degraded, and the source's own comment at the
warning (`"Database operations will fail."`) intends the same; but
`create_engine(DATABASE_URL)` at module level receives `None` and raises
`sqlalchemy.exc.ArgumentError` uncaught, so import — and hence process
startup — crashes.  (A missing `API_KEY` alone really is lazy: with
`DATABASE_URL` set, startup runs and `log_interaction` answers 500, see
the C7 theorem.) -/
theorem c2_missing_database_url_crashes_startup :
    startup ⟨none, some "abc123"⟩ true =
      .crashed "ArgumentError: Expected string or URL object, got None" ∧
    startup ⟨some "postgresql://db", none⟩ true = .running false false := by
  exact ⟨rfl, rfl⟩

/-- Every row of a served table either was already there or was appended
by some `POST` of the trace, with truthy required fields, that request's
drawn uuid as id and that request's server-clock value as timestamp. -/
theorem runTrace_mem (env : Env) (ops : List Op) (db : List Interaction)
    (r : Interaction) (hr : r ∈ runTrace env ops db) :
    r ∈ db ∨
      (truthyOpt r.user_message = true ∧ truthyOpt r.gpt_response = true ∧
       ∃ i, Op.post i ∈ ops ∧ r.id = i.freshId ∧ r.timestamp = i.now) := by
  induction ops generalizing db with
  | nil => exact Or.inl hr
  | cons op rest ih =>
    rcases ih (stepDb env db op) hr with hmem | hprop
    · cases op with
      | health => exact Or.inl hmem
      | post i =>
        rcases log_interaction_db_cases env i.req i.freshId i.now
            i.commitError db with hdb | ⟨row, hdb, hid, hts, humm, hgrr⟩
        · rw [stepDb, hdb] at hmem
          exact Or.inl hmem
        · rw [stepDb, hdb, List.mem_append] at hmem
          rcases hmem with h | h
          · exact Or.inl h
          · rw [List.mem_singleton] at h
            subst h
            exact Or.inr ⟨humm, hgrr, i, List.mem_cons_self _ _, hid, hts⟩
    · rcases hprop with ⟨h1, h2, i, hin, h3, h4⟩
      exact Or.inr ⟨h1, h2, i, List.mem_cons_of_mem _ hin, h3, h4⟩

/-- Serving operations only ever appends rows: the table before is a
prefix of the table after, so existing rows are never updated, reordered
or deleted. -/
theorem runTrace_extends (env : Env) (ops : List Op) (db : List Interaction) :
    ∃ t, runTrace env ops db = db ++ t := by
  induction ops generalizing db with
  | nil => exact ⟨[], by simp [runTrace]⟩
  | cons op rest ih =>
    have hstep : ∃ s, stepDb env db op = db ++ s := by
      cases op with
      | health => exact ⟨[], by simp [stepDb, health_check]⟩
      | post i =>
        rcases log_interaction_db_cases env i.req i.freshId i.now
            i.commitError db with hdb | ⟨row, hdb, _⟩
        · exact ⟨[], by simp [stepDb, hdb]⟩
        · exact ⟨[row], by simp [stepDb, hdb]⟩
    rcases hstep with ⟨s, hs⟩
    rcases ih (stepDb env db op) with ⟨t, ht⟩
    refine ⟨s ++ t, ?_⟩
    calc runTrace env (op :: rest) db
        = runTrace env rest (stepDb env db op) := rfl
      _ = stepDb env db op ++ t := ht
      _ = db ++ (s ++ t) := by rw [hs, List.append_assoc]

/-- When the uuids drawn across a trace are pairwise distinct and also
avoid the ids already in the table, the ids in the served table stay
pairwise distinct. -/
theorem runTrace_ids_nodup (env : Env) (ops : List Op)
    (db : List Interaction)
    (h : (db.map Interaction.id ++ postFreshIds ops).Nodup) :
    ((runTrace env ops db).map Interaction.id).Nodup := by
  induction ops generalizing db with
  | nil => simpa [runTrace, postFreshIds] using h
  | cons op rest ih =>
    cases op with
    | health =>
      exact ih db (by simpa [postFreshIds] using h)
    | post i =>
      rcases log_interaction_db_cases env i.req i.freshId i.now
          i.commitError db with hdb | ⟨row, hdb, hid, _⟩
      · have hsub : (db.map Interaction.id ++ postFreshIds rest).Sublist
            (db.map Interaction.id ++ postFreshIds (.post i :: rest)) := by
          apply List.Sublist.append_left
          simp [postFreshIds]
        have h' := h.sublist hsub
        have : runTrace env (.post i :: rest) db
            = runTrace env rest (stepDb env db (.post i)) := rfl
        rw [this, stepDb, hdb]
        exact ih db h'
      · have h' : ((db ++ [row]).map Interaction.id ++
            postFreshIds rest).Nodup := by
          simpa [postFreshIds, hid, List.append_assoc] using h
        have : runTrace env (.post i :: rest) db
            = runTrace env rest (stepDb env db (.post i)) := rfl
        rw [this, stepDb, hdb]
        exact ih (db ++ [row]) h'

/-- C6: starting from the empty table, after any trace of operations
every row has truthy (for strings: non-empty) `user_message` and
`gpt_response` and got its `id` and its server-set `timestamp` from the
`POST` that created it; when the drawn uuids are pairwise distinct the
ids in the table are pairwise distinct; and serving further operations
only appends — no operation of the system updates or deletes an existing
row, so rows and their ids never change after creation. -/
theorem c6_table_invariants (env : Env) (ops more : List Op)
    (hids : (postFreshIds ops).Nodup) :
    (∀ r ∈ runTrace env ops [],
       truthyOpt r.user_message = true ∧ truthyOpt r.gpt_response = true ∧
       ∃ i, Op.post i ∈ ops ∧ r.id = i.freshId ∧ r.timestamp = i.now) ∧
    ((runTrace env ops []).map Interaction.id).Nodup ∧
    (∃ t, runTrace env (ops ++ more) [] = runTrace env ops [] ++ t) := by
  refine ⟨?_, ?_, ?_⟩
  · intro r hr
    rcases runTrace_mem env ops [] r hr with h | h
    · exact absurd h (List.not_mem_nil r)
    · exact h
  · exact runTrace_ids_nodup env ops [] (by simpa using hids)
  · have hsplit : runTrace env (ops ++ more) []
        = runTrace env more (runTrace env ops []) := by
      simp [runTrace, List.foldl_append]
    rw [hsplit]
    exact runTrace_extends env more _

/-- A valid concrete request, used by the C6 witness. -/
def sampleReq : Request :=
  ⟨some "abc123", some (.obj [("userMessage", Json.str "hi"),
                              ("gptResponse", Json.str "hello")])⟩

/-- A concrete trace for the C6 witness: two successful `POST`s with
distinct uuids around one health check. -/
def sampleOps : List Op :=
  [.post ⟨sampleReq, "uuid-1", 7, none⟩, .health,
   .post ⟨sampleReq, "uuid-2", 9, none⟩]

/-- Witness for C6 on the concrete trace `sampleOps`. -/
theorem c6_witness :
    (postFreshIds sampleOps).Nodup ∧
    ((∀ r ∈ runTrace ⟨some "postgresql://db", some "abc123"⟩ sampleOps [],
       truthyOpt r.user_message = true ∧ truthyOpt r.gpt_response = true ∧
       ∃ i, Op.post i ∈ sampleOps ∧ r.id = i.freshId ∧ r.timestamp = i.now) ∧
     ((runTrace ⟨some "postgresql://db", some "abc123"⟩ sampleOps []).map
        Interaction.id).Nodup ∧
     (∃ t, runTrace ⟨some "postgresql://db", some "abc123"⟩
         (sampleOps ++ [Op.health]) [] =
       runTrace ⟨some "postgresql://db", some "abc123"⟩ sampleOps [] ++ t)) :=
  ⟨by decide,
    c6_table_invariants ⟨some "postgresql://db", some "abc123"⟩
      sampleOps [Op.health] (by decide)⟩
